import Mathlib

/-!
Verification of the soccer-overlay repository.

Shallow embedding of the program logic of the repository:
  - score_overlay.py : goal-time parsing and the score timeline
    (SoccerScoreOverlay.parse_goal_data, SoccerScoreOverlay._to_seconds),
    and the lineup item animation (_create_lineup_item_animation,
    create_lineup_overlay timing arithmetic);
  - video_clipper.py : parse_time and the time validation and clamping
    logic of clip_video;
  - animation.py : the Easing library, the default-easing selection of the
    entrance animations, and the slide_down_and_up position function.

Numeric values are modelled over exact fields: Python floats are modelled
as rationals where the program only performs field arithmetic and
comparisons, and as real numbers where the code uses transcendental
functions (2 ** x, sin, pi).  Python exceptions are modelled with Option:
a function that may raise returns none exactly on the raising inputs.
-/

/- ===================== Python primitives ===================== -/

/-- Whitespace characters removed by Python str.strip(). -/
def isPySpace (c : Char) : Bool :=
  c = ' ' || c = '\t' || c = '\n' || c = '\r' || c = '\x0b' || c = '\x0c'

/-- Models Python str.strip(): drop whitespace from both ends. -/
def pyStrip (cs : List Char) : List Char :=
  ((cs.dropWhile isPySpace).reverse.dropWhile isPySpace).reverse

/-- Value of a decimal digit character. -/
def digitVal (c : Char) : ℕ := c.toNat - 48

/-- True when the list is a nonempty run of decimal digits. -/
def allDigits (cs : List Char) : Bool := !cs.isEmpty && cs.all (·.isDigit)

/-- Value of a run of decimal digits (most significant first). -/
def digitsVal (cs : List Char) : ℕ := cs.foldl (fun n c => n * 10 + digitVal c) 0

/-- Strip one optional leading sign; returns (isNegative, rest). -/
def stripSign : List Char → Bool × List Char
  | '-' :: rest => (true, rest)
  | '+' :: rest => (false, rest)
  | cs => (false, cs)

/-- Models Python str.split(sep) on a character list: splits at every
occurrence of the separator, keeping empty fields.  Never returns []. -/
def splitOnChar (sep : Char) : List Char → List (List Char)
  | [] => [[]]
  | c :: rest =>
    if c = sep then [] :: splitOnChar sep rest
    else
      match splitOnChar sep rest with
      | [] => [[c]]
      | h :: t => (c :: h) :: t

/-- Models the Python builtin int() on a string: optional surrounding
whitespace, optional sign, then a nonempty run of decimal digits; none
models a raised ValueError. -/
def pyInt (cs0 : List Char) : Option ℤ :=
  let cs := pyStrip cs0
  let sb := stripSign cs
  if allDigits sb.2 then
    some (if sb.1 then -(digitsVal sb.2 : ℤ) else (digitsVal sb.2 : ℤ))
  else none

/-- Models the Python builtin float() on plain decimal literals: optional
surrounding whitespace, optional sign, then digits with at most one
decimal point (at least one digit overall); none models a raised
ValueError.  Exponent and inf/nan forms, which no claim exercises, are
out of the model. -/
def pyFloat (cs0 : List Char) : Option ℚ :=
  let cs := pyStrip cs0
  let sb := stripSign cs
  let val? : Option ℚ :=
    match splitOnChar '.' sb.2 with
    | [intPart] => if allDigits intPart then some ((digitsVal intPart : ℚ)) else none
    | [intPart, fracPart] =>
      if (intPart.all (·.isDigit) && fracPart.all (·.isDigit)
            && !(intPart.isEmpty && fracPart.isEmpty)) then
        some ((digitsVal intPart : ℚ) + (digitsVal fracPart : ℚ) / (10 : ℚ) ^ fracPart.length)
      else none
    | _ => none
  val?.map (fun v => if sb.1 then -v else v)

/- ===================== Data model ===================== -/

/-- A Python value passed as an event time: a number (int or float) or a
string. -/
inductive TimeVal where
  | num (q : ℚ)
  | str (s : String)
deriving DecidableEq

/-- A Python value passed as a team id: an int or a string (the code never
validates it). -/
inductive PyVal where
  | vint (n : ℤ)
  | vstr (s : String)
deriving DecidableEq

/-- A goal event dict: {"time": ..., "team": ...}. -/
structure Goal where
  time : TimeVal
  team : PyVal
deriving DecidableEq

/- ===================== score_overlay.py ===================== -/

/-- Models SoccerScoreOverlay._to_seconds (score_overlay.py lines
127-137): numbers pass through as floats; a string containing a colon is
split on the colon and only int(parts[0]) * 60 + int(parts[1]) is
returned (any further fields are ignored); otherwise float(s). -/
def to_seconds : TimeVal → Option ℚ
  | .num q => some q
  | .str s =>
    let cs := s.toList
    if cs.contains ':' then
      let parts := splitOnChar ':' cs
      (pyInt (parts.getD 0 [])).bind fun a =>
        (pyInt (parts.getD 1 [])).map fun (b : ℤ) => (a : ℚ) * 60 + (b : ℚ)
    else
      pyFloat cs

/-- Models the comparison goal['team'] == 1 (score_overlay.py line 118):
only the int 1 compares equal to 1 in Python; strings never do. -/
def teamIsOne : PyVal → Bool
  | .vint n => n = 1
  | .vstr _ => false

/-- The running-score loop of parse_goal_data (score_overlay.py lines
115-123): every goal whose team compares equal to 1 increments team 1,
every other goal increments team 2, and one (timestamp, score1, score2)
tuple is emitted per goal. -/
def buildTimeline : ℕ → ℕ → List (ℚ × Goal) → List (ℚ × ℕ × ℕ)
  | _, _, [] => []
  | s1, s2, (t, g) :: rest =>
    if teamIsOne g.team then (t, s1 + 1, s2) :: buildTimeline (s1 + 1) s2 rest
    else (t, s1, s2 + 1) :: buildTimeline s1 (s2 + 1) rest

/-- Key computation of sorted(goals, key=lambda x: _to_seconds(x['time']))
(score_overlay.py line 113): the key is computed for every goal, raising
(none) as soon as one time fails to parse.  Each goal is paired with its
key; the loop body recomputes the same pure value, so carrying the pair
is behaviour-preserving. -/
def key_goals : List Goal → Option (List (ℚ × Goal))
  | [] => some []
  | g :: gs =>
    match to_seconds g.time, key_goals gs with
    | some t, some rest => some ((t, g) :: rest)
    | _, _ => none

/-- The comparison used by the sort: ascending in the parsed time key.
Python's sorted() is a stable mergesort; List.mergeSort is the matching
stable sort. -/
def goalKeyLE : (ℚ × Goal) → (ℚ × Goal) → Bool := fun a b => decide (a.1 ≤ b.1)

/-- Models sorted(goals, key=lambda x: _to_seconds(x['time'])). -/
def sorted_goals (goals : List Goal) : Option (List (ℚ × Goal)) :=
  (key_goals goals).map (fun l => l.mergeSort goalKeyLE)

/-- Models SoccerScoreOverlay.parse_goal_data (score_overlay.py lines
96-125): sort the goals by parsed time, accumulate per-team counters,
and prefix the implicit (0, 0, 0) baseline. -/
def parse_goal_data (goals : List Goal) : Option (List (ℚ × ℕ × ℕ)) :=
  (sorted_goals goals).map (fun l => (0, 0, 0) :: buildTimeline 0 0 l)

/- ===================== video_clipper.py ===================== -/

/-- Models video_clipper.parse_time (video_clipper.py lines 14-53):
numbers pass through as floats; strings are stripped, tried as a float
literal, then as MM:SS or HH:MM:SS with integer fields; anything else
raises (none). -/
def parse_time : TimeVal → Option ℚ
  | .num q => some q
  | .str s0 =>
    let cs := pyStrip s0.toList
    match pyFloat cs with
    | some v => some v
    | none =>
      if cs.contains ':' then
        match splitOnChar ':' cs with
        | [a, b] =>
          (pyInt a).bind fun m =>
            (pyInt b).map fun (sec : ℤ) => (m : ℚ) * 60 + (sec : ℚ)
        | [a, b, c] =>
          (pyInt a).bind fun h => (pyInt b).bind fun m =>
            (pyInt c).map fun (sec : ℤ) => (h : ℚ) * 3600 + (m : ℚ) * 60 + (sec : ℚ)
        | _ => none
      else none

/-- The claim-side notion of a numeric string for parse_time: the float
path accepts it. -/
def isNumericString (s : String) : Prop := (pyFloat (pyStrip s.toList)).isSome

/-- The claim-side notion of a colon-separated time string for
parse_time: 2 or 3 colon-separated fields, each an integer literal. -/
def isColonTime (s : String) : Prop :=
  let parts := splitOnChar ':' (pyStrip s.toList)
  (parts.length = 2 ∨ parts.length = 3) ∧ ∀ p ∈ parts, (pyInt p).isSome

/-- Models the time validation and clamping of clip_video
(video_clipper.py lines 89-118), given the parsed start and end times and
the video duration: error when start >= end, error when start >= duration,
otherwise the end time is clamped to the duration and the clip bounds are
returned. -/
def clip_video_bounds (video_duration start_seconds end_seconds : ℚ) :
    Except String (ℚ × ℚ) :=
  if start_seconds ≥ end_seconds then
    .error "Start time must be before end time"
  else if start_seconds ≥ video_duration then
    .error "Start time is beyond video duration"
  else
    let end2 := if end_seconds > video_duration then video_duration else end_seconds
    .ok (start_seconds, end2)

/- ===================== animation.py : rational easing functions ===== -/

/-- Models Easing.ease_in_quad (animation.py lines 18-21) over the
rationals (the function is pure field arithmetic). -/
def EasingQ.ease_in_quad (t : ℚ) : ℚ := t * t

/-- Models Easing.ease_in_out_quad (animation.py lines 28-31) over the
rationals. -/
def EasingQ.ease_in_out_quad (t : ℚ) : ℚ :=
  if t < 0.5 then 2 * t * t else -1 + (4 - 2 * t) * t

/-- Models Easing.ease_out_bounce (animation.py lines 136-151) over the
rationals. -/
def EasingQ.ease_out_bounce (t : ℚ) : ℚ :=
  if t < 1 / 2.75 then 7.5625 * t * t
  else if t < 2 / 2.75 then
    let u := t - 1.5 / 2.75
    7.5625 * u * u + 0.75
  else if t < 2.5 / 2.75 then
    let u := t - 2.25 / 2.75
    7.5625 * u * u + 0.9375
  else
    let u := t - 2.625 / 2.75
    7.5625 * u * u + 0.984375

/- ===================== animation.py : position functions ===== -/

/-- Models the inner slide_down_up_position closure of
OverlayAnimations.slide_down_and_up (animation.py lines 583-602),
parameterized by the easing function (default Easing.ease_in_out_quad):
phase 1 slides down by the clip height h, phase 2 holds the bottom
position, phase 3 slides back up with its progress clamped to 1. -/
def slide_down_up_position (slide_duration pause_duration : ℚ)
    (easing : ℚ → ℚ) (h base_x base_y : ℚ) (t : ℚ) : ℚ × ℚ :=
  if t ≤ slide_duration then
    (base_x, base_y + h * easing (t / slide_duration))
  else if t ≤ slide_duration + pause_duration then
    (base_x, base_y + h)
  else
    let progress := min 1 ((t - (slide_duration + pause_duration)) / slide_duration)
    (base_x, base_y + h * (1 - easing progress))

/-- Models the inner position_function closure of
SoccerScoreOverlay._create_lineup_item_animation (score_overlay.py lines
436-462): wait off-screen, slide in with ease_out_bounce, hold until the
shared exit time total_animation_time + display_duration, then slide out
with ease_in_quad, exit progress clamped to 1. -/
def lineup_item_position (container_width final_x final_y start_delay
    anim_duration display_duration total_anim_time : ℚ) (t : ℚ) : ℚ × ℚ :=
  if t < start_delay then
    (-container_width - 100, final_y)
  else if t < start_delay + anim_duration then
    let progress := (t - start_delay) / anim_duration
    let eased := EasingQ.ease_out_bounce progress
    let start_x := -container_width - 100
    (start_x + (final_x - start_x) * eased, final_y)
  else if t < total_anim_time + display_duration then
    (final_x, final_y)
  else
    let exit_progress := min 1 ((t - (total_anim_time + display_duration)) / anim_duration)
    let eased := EasingQ.ease_in_quad exit_progress
    let end_x := -container_width - 100
    (final_x + (end_x - final_x) * eased, final_y)

/-- Start delay of lineup row i (score_overlay.py line 334:
item_index * stagger). -/
def lineup_row_start_delay (i : ℕ) (stagger : ℚ) : ℚ := (i : ℚ) * stagger

/-- Number of lineup rows (score_overlay.py line 295: team name +
players + director). -/
def lineup_total_items (numPlayers : ℕ) : ℕ := 1 + numPlayers + 1

/-- Total entrance time of the lineup (score_overlay.py line 296:
(total_items - 1) * stagger + anim_duration). -/
def lineup_total_anim_time (numPlayers : ℕ) (stagger anim_duration : ℚ) : ℚ :=
  ((lineup_total_items numPlayers : ℚ) - 1) * stagger + anim_duration

/- ===================== animation.py : the Easing library over ℝ ===== -/

/-- Back-easing constant c1 = 1.70158 (animation.py lines 90, 97, 104). -/
noncomputable def backC1 : ℝ := 1.70158

/-- Back-easing constant c3 = c1 + 1 (animation.py lines 91, 98). -/
noncomputable def backC3 : ℝ := backC1 + 1

/-- Back-easing constant c2 = c1 * 1.525 (animation.py line 105). -/
noncomputable def backC2 : ℝ := backC1 * 1.525

/-- Elastic constant c4 = 2 * pi / 3 (animation.py lines 113, 121). -/
noncomputable def elasticC4 : ℝ := 2 * Real.pi / 3

/-- Elastic constant c5 = 2 * pi / 4.5 (animation.py line 129). -/
noncomputable def elasticC5 : ℝ := 2 * Real.pi / 4.5

namespace Easing

/-- Models Easing.linear (animation.py lines 13-16). -/
noncomputable def linear (t : ℝ) : ℝ := t

/-- Models Easing.ease_in_quad (animation.py lines 18-21). -/
noncomputable def ease_in_quad (t : ℝ) : ℝ := t * t

/-- Models Easing.ease_out_quad (animation.py lines 23-26). -/
noncomputable def ease_out_quad (t : ℝ) : ℝ := t * (2 - t)

/-- Models Easing.ease_in_out_quad (animation.py lines 28-31). -/
noncomputable def ease_in_out_quad (t : ℝ) : ℝ :=
  if t < 0.5 then 2 * t * t else -1 + (4 - 2 * t) * t

/-- Models Easing.ease_in_cubic (animation.py lines 33-36). -/
noncomputable def ease_in_cubic (t : ℝ) : ℝ := t * t * t

/-- Models Easing.ease_out_cubic (animation.py lines 38-41). -/
noncomputable def ease_out_cubic (t : ℝ) : ℝ := (t - 1) * (t - 1) * (t - 1) + 1

/-- Models Easing.ease_in_out_cubic (animation.py lines 43-46). -/
noncomputable def ease_in_out_cubic (t : ℝ) : ℝ :=
  if t < 0.5 then 4 * t * t * t else (t - 1) * (2 * t - 2) * (2 * t - 2) + 1

/-- Models Easing.ease_in_quart (animation.py lines 48-51). -/
noncomputable def ease_in_quart (t : ℝ) : ℝ := t * t * t * t

/-- Models Easing.ease_out_quart (animation.py lines 53-57). -/
noncomputable def ease_out_quart (t : ℝ) : ℝ :=
  let u := t - 1
  1 - u * u * u * u

/-- Models Easing.ease_in_out_quart (animation.py lines 59-66). -/
noncomputable def ease_in_out_quart (t : ℝ) : ℝ :=
  if t < 0.5 then 8 * t * t * t * t
  else
    let u := t - 1
    1 - 8 * u * u * u * u

/-- Models Easing.ease_in_expo (animation.py lines 68-71). -/
noncomputable def ease_in_expo (t : ℝ) : ℝ :=
  if t = 0 then 0 else (2 : ℝ) ^ (10 * (t - 1))

/-- Models Easing.ease_out_expo (animation.py lines 73-76). -/
noncomputable def ease_out_expo (t : ℝ) : ℝ :=
  if t = 1 then 1 else 1 - (2 : ℝ) ^ (-10 * t)

/-- Models Easing.ease_in_out_expo (animation.py lines 78-85). -/
noncomputable def ease_in_out_expo (t : ℝ) : ℝ :=
  if t = 0 ∨ t = 1 then t
  else if t < 0.5 then (2 : ℝ) ^ (20 * t - 10) / 2
  else (2 - (2 : ℝ) ^ (-20 * t + 10)) / 2

/-- Models Easing.ease_in_back (animation.py lines 87-92). -/
noncomputable def ease_in_back (t : ℝ) : ℝ :=
  backC3 * t * t * t - backC1 * t * t

/-- Models Easing.ease_out_back (animation.py lines 94-99). -/
noncomputable def ease_out_back (t : ℝ) : ℝ :=
  1 + backC3 * (t - 1) ^ 3 + backC1 * (t - 1) ^ 2

/-- Models Easing.ease_in_out_back (animation.py lines 101-108). -/
noncomputable def ease_in_out_back (t : ℝ) : ℝ :=
  if t < 0.5 then ((2 * t) ^ 2 * ((backC2 + 1) * 2 * t - backC2)) / 2
  else ((2 * t - 2) ^ 2 * ((backC2 + 1) * (t * 2 - 2) + backC2) + 2) / 2

/-- Models Easing.ease_in_elastic (animation.py lines 110-116). -/
noncomputable def ease_in_elastic (t : ℝ) : ℝ :=
  if t = 0 ∨ t = 1 then t
  else -((2 : ℝ) ^ (10 * t - 10)) * Real.sin ((t * 10 - 10.75) * elasticC4)

/-- Models Easing.ease_out_elastic (animation.py lines 118-124). -/
noncomputable def ease_out_elastic (t : ℝ) : ℝ :=
  if t = 0 ∨ t = 1 then t
  else (2 : ℝ) ^ (-10 * t) * Real.sin ((t * 10 - 0.75) * elasticC4) + 1

/-- Models Easing.ease_in_out_elastic (animation.py lines 126-134). -/
noncomputable def ease_in_out_elastic (t : ℝ) : ℝ :=
  if t = 0 ∨ t = 1 then t
  else if t < 0.5 then
    -((2 : ℝ) ^ (20 * t - 10) * Real.sin ((20 * t - 11.125) * elasticC5)) / 2
  else ((2 : ℝ) ^ (-20 * t + 10) * Real.sin ((20 * t - 11.125) * elasticC5)) / 2 + 1

/-- Models Easing.ease_out_bounce (animation.py lines 136-151). -/
noncomputable def ease_out_bounce (t : ℝ) : ℝ :=
  if t < 1 / 2.75 then 7.5625 * t * t
  else if t < 2 / 2.75 then
    let u := t - 1.5 / 2.75
    7.5625 * u * u + 0.75
  else if t < 2.5 / 2.75 then
    let u := t - 2.25 / 2.75
    7.5625 * u * u + 0.9375
  else
    let u := t - 2.625 / 2.75
    7.5625 * u * u + 0.984375

/-- Models Easing.ease_in_bounce (animation.py lines 153-156). -/
noncomputable def ease_in_bounce (t : ℝ) : ℝ := 1 - ease_out_bounce (1 - t)

/-- Models Easing.ease_in_out_bounce (animation.py lines 158-163). -/
noncomputable def ease_in_out_bounce (t : ℝ) : ℝ :=
  if t < 0.5 then (1 - ease_out_bounce (1 - 2 * t)) / 2
  else (1 + ease_out_bounce (2 * t - 1)) / 2

end Easing

/- ========== animation.py : default easing of the entrance animations == -/

/-- Names of the functions of the Easing library, used to model which
library function an animation picks when the caller passes easing=None. -/
inductive EasingId where
  | linear
  | ease_in_quad
  | ease_out_quad
  | ease_in_out_quad
  | ease_in_cubic
  | ease_out_cubic
  | ease_in_out_cubic
  | ease_in_quart
  | ease_out_quart
  | ease_in_out_quart
  | ease_in_expo
  | ease_out_expo
  | ease_in_out_expo
  | ease_in_back
  | ease_out_back
  | ease_in_out_back
  | ease_in_elastic
  | ease_out_elastic
  | ease_in_out_elastic
  | ease_out_bounce
  | ease_in_bounce
  | ease_in_out_bounce
deriving DecidableEq

/-- The function of the Easing library named by an EasingId. -/
noncomputable def denoteEasing : EasingId → (ℝ → ℝ)
  | .linear => Easing.linear
  | .ease_in_quad => Easing.ease_in_quad
  | .ease_out_quad => Easing.ease_out_quad
  | .ease_in_out_quad => Easing.ease_in_out_quad
  | .ease_in_cubic => Easing.ease_in_cubic
  | .ease_out_cubic => Easing.ease_out_cubic
  | .ease_in_out_cubic => Easing.ease_in_out_cubic
  | .ease_in_quart => Easing.ease_in_quart
  | .ease_out_quart => Easing.ease_out_quart
  | .ease_in_out_quart => Easing.ease_in_out_quart
  | .ease_in_expo => Easing.ease_in_expo
  | .ease_out_expo => Easing.ease_out_expo
  | .ease_in_out_expo => Easing.ease_in_out_expo
  | .ease_in_back => Easing.ease_in_back
  | .ease_out_back => Easing.ease_out_back
  | .ease_in_out_back => Easing.ease_in_out_back
  | .ease_in_elastic => Easing.ease_in_elastic
  | .ease_out_elastic => Easing.ease_out_elastic
  | .ease_in_out_elastic => Easing.ease_in_out_elastic
  | .ease_out_bounce => Easing.ease_out_bounce
  | .ease_in_bounce => Easing.ease_in_bounce
  | .ease_in_out_bounce => Easing.ease_in_out_bounce

/-- The ease-out family of the Easing library. -/
def easeOutFamily : List EasingId :=
  [.ease_out_quad, .ease_out_cubic, .ease_out_quart, .ease_out_expo,
   .ease_out_back, .ease_out_elastic, .ease_out_bounce]

/-- Easing selected by OverlayAnimations.fade_in (animation.py lines
172-173): Easing.linear when the caller passes none. -/
def fade_in_easing (easing : Option EasingId) : EasingId :=
  easing.getD .linear

/-- Easing selected by OverlayAnimations.slide_in_from_top (animation.py
lines 202-203). -/
def slide_in_from_top_easing (easing : Option EasingId) : EasingId :=
  easing.getD .ease_out_quad

/-- Easing selected by OverlayAnimations.slide_in_from_bottom
(animation.py lines 218-219). -/
def slide_in_from_bottom_easing (easing : Option EasingId) : EasingId :=
  easing.getD .ease_out_quad

/-- Easing selected by OverlayAnimations.slide_in_from_left (animation.py
lines 234-235). -/
def slide_in_from_left_easing (easing : Option EasingId) : EasingId :=
  easing.getD .ease_out_quad

/-- Easing selected by OverlayAnimations.slide_in_from_right
(animation.py lines 250-251). -/
def slide_in_from_right_easing (easing : Option EasingId) : EasingId :=
  easing.getD .ease_out_quad

/-- Easing selected by OverlayAnimations.zoom_in (animation.py lines
299-300). -/
def zoom_in_easing (easing : Option EasingId) : EasingId :=
  easing.getD .ease_out_cubic

/-- Easing selected by OverlayAnimations.bounce_in (animation.py lines
331-332). -/
def bounce_in_easing (easing : Option EasingId) : EasingId :=
  easing.getD .ease_out_bounce

deriving instance DecidableEq for Except

/- ===================== helper lemmas ===================== -/

theorem splitOnChar_ne_nil (sep : Char) (cs : List Char) : splitOnChar sep cs ≠ [] := by
  induction cs with
  | nil => simp [splitOnChar]
  | cons c rest ih =>
    simp only [splitOnChar]
    split
    · simp
    · cases h : splitOnChar sep rest with
      | nil => simp
      | cons hd tl => simp

theorem splitOnChar_of_not_contains {sep : Char} {cs : List Char}
    (h : cs.contains sep = false) : splitOnChar sep cs = [cs] := by
  induction cs with
  | nil => rfl
  | cons c rest ih =>
    have hc : ¬ c = sep := by
      intro hcs
      subst hcs
      simp [List.contains_cons] at h
    have hrest : rest.contains sep = false := by
      simp [List.contains_cons] at h
      simp [h.2]
    simp only [splitOnChar, if_neg hc, ih hrest]

theorem contains_of_splitOnChar {sep : Char} {cs : List Char} {a b : List Char}
    {r : List (List Char)} (h : splitOnChar sep cs = a :: b :: r) :
    cs.contains sep = true := by
  by_contra hcon
  rw [Bool.not_eq_true] at hcon
  rw [splitOnChar_of_not_contains hcon] at h
  simp at h

theorem isSome_bind_map {α β γ : Type} (o₁ : Option α) (o₂ : Option β) (f : α → β → γ) :
    (o₁.bind fun x => o₂.map fun y => f x y).isSome = (o₁.isSome && o₂.isSome) := by
  cases o₁ <;> cases o₂ <;> rfl

theorem isSome_bind_bind_map {α β γ δ : Type} (o₁ : Option α) (o₂ : Option β)
    (o₃ : Option γ) (f : α → β → γ → δ) :
    (o₁.bind fun x => o₂.bind fun y => o₃.map fun z => f x y z).isSome =
      (o₁.isSome && o₂.isSome && o₃.isSome) := by
  cases o₁ <;> cases o₂ <;> cases o₃ <;> rfl

theorem goalKeyLE_trans (a b c : ℚ × Goal) (hab : goalKeyLE a b = true)
    (hbc : goalKeyLE b c = true) : goalKeyLE a c = true := by
  simp only [goalKeyLE, decide_eq_true_eq] at hab hbc ⊢
  exact le_trans hab hbc

theorem goalKeyLE_total (a b : ℚ × Goal) : (goalKeyLE a b || goalKeyLE b a) = true := by
  simp only [goalKeyLE, Bool.or_eq_true, decide_eq_true_eq]
  exact le_total a.1 b.1

theorem buildTimeline_map_fst (l : List (ℚ × Goal)) :
    ∀ s1 s2, (buildTimeline s1 s2 l).map Prod.fst = l.map Prod.fst := by
  induction l with
  | nil => intro s1 s2; rfl
  | cons p rest ih =>
    intro s1 s2
    obtain ⟨t, g⟩ := p
    simp only [buildTimeline]
    split
    · simp [ih]
    · simp [ih]

theorem buildTimeline_chain_scores (l : List (ℚ × Goal)) :
    ∀ s1 s2 (p : ℚ × ℕ × ℕ), p.2.1 = s1 → p.2.2 = s2 →
      List.Chain (fun a b : ℚ × ℕ × ℕ => a.2.1 ≤ b.2.1 ∧ a.2.2 ≤ b.2.2) p
        (buildTimeline s1 s2 l) := by
  induction l with
  | nil => intro s1 s2 p _ _; exact List.Chain.nil
  | cons q rest ih =>
    intro s1 s2 p h1 h2
    obtain ⟨t, g⟩ := q
    simp only [buildTimeline]
    split
    · exact List.Chain.cons (by simp [h1, h2]) (ih (s1 + 1) s2 (t, s1 + 1, s2) rfl rfl)
    · exact List.Chain.cons (by simp [h1, h2]) (ih s1 (s2 + 1) (t, s1, s2 + 1) rfl rfl)

theorem key_goals_mem (goals : List Goal) (kl : List (ℚ × Goal))
    (h : key_goals goals = some kl) :
    ∀ p ∈ kl, to_seconds p.2.time = some p.1 ∧ p.2 ∈ goals := by
  induction goals generalizing kl with
  | nil =>
    simp only [key_goals, Option.some.injEq] at h
    subst h; simp
  | cons g gs ih =>
    simp only [key_goals] at h
    cases ht : to_seconds g.time with
    | none => rw [ht] at h; simp at h
    | some t =>
      rw [ht] at h
      cases hr : key_goals gs with
      | none => rw [hr] at h; simp at h
      | some rest =>
        rw [hr] at h
        simp only [Option.some.injEq] at h
        subst h
        intro p hp
        rcases List.mem_cons.mp hp with hp | hp
        · subst hp; exact ⟨ht, List.mem_cons_self _ _⟩
        · obtain ⟨h1, h2⟩ := ih rest hr p hp
          exact ⟨h1, List.mem_cons_of_mem _ h2⟩

theorem key_goals_map_snd (goals : List Goal) (kl : List (ℚ × Goal))
    (h : key_goals goals = some kl) : kl.map Prod.snd = goals := by
  induction goals generalizing kl with
  | nil =>
    simp only [key_goals, Option.some.injEq] at h
    subst h; rfl
  | cons g gs ih =>
    simp only [key_goals] at h
    cases ht : to_seconds g.time with
    | none => rw [ht] at h; simp at h
    | some t =>
      rw [ht] at h
      cases hr : key_goals gs with
      | none => rw [hr] at h; simp at h
      | some rest =>
        rw [hr] at h
        simp only [Option.some.injEq] at h
        subst h
        simp [ih rest hr]

theorem buildTimeline_getLastD (l : List (ℚ × Goal)) :
    ∀ s1 s2 (d : ℚ × ℕ × ℕ), d.2.1 = s1 → d.2.2 = s2 →
      ((buildTimeline s1 s2 l).getLastD d).2.1 =
          s1 + l.countP (fun p => teamIsOne p.2.team) ∧
        ((buildTimeline s1 s2 l).getLastD d).2.2 =
          s2 + l.countP (fun p => !teamIsOne p.2.team) := by
  induction l with
  | nil =>
    intro s1 s2 d h1 h2
    simp [buildTimeline, List.countP_nil, h1, h2]
  | cons q rest ih =>
    intro s1 s2 d h1 h2
    obtain ⟨t, g⟩ := q
    simp only [buildTimeline]
    cases hteam : teamIsOne g.team with
    | true =>
      rw [if_pos rfl]
      rw [List.getLastD_cons]
      obtain ⟨e1, e2⟩ := ih (s1 + 1) s2 (t, s1 + 1, s2) rfl rfl
      constructor
      · rw [e1, List.countP_cons]
        simp [hteam]; omega
      · rw [e2, List.countP_cons]
        simp [hteam]
    | false =>
      rw [if_neg (by simp [hteam])]
      rw [List.getLastD_cons]
      obtain ⟨e1, e2⟩ := ih s1 (s2 + 1) (t, s1, s2 + 1) rfl rfl
      constructor
      · rw [e1, List.countP_cons]
        simp [hteam]
      · rw [e2, List.countP_cons]
        simp [hteam]; omega

theorem ease01_linear : Easing.linear 0 = 0 ∧ Easing.linear 1 = 1 := by
  constructor <;> rfl

theorem ease01_in_quad : Easing.ease_in_quad 0 = 0 ∧ Easing.ease_in_quad 1 = 1 := by
  constructor <;> norm_num [Easing.ease_in_quad]

theorem ease01_out_quad : Easing.ease_out_quad 0 = 0 ∧ Easing.ease_out_quad 1 = 1 := by
  constructor <;> norm_num [Easing.ease_out_quad]

theorem ease01_in_out_quad :
    Easing.ease_in_out_quad 0 = 0 ∧ Easing.ease_in_out_quad 1 = 1 := by
  constructor <;> norm_num [Easing.ease_in_out_quad]

theorem ease01_in_cubic : Easing.ease_in_cubic 0 = 0 ∧ Easing.ease_in_cubic 1 = 1 := by
  constructor <;> norm_num [Easing.ease_in_cubic]

theorem ease01_out_cubic : Easing.ease_out_cubic 0 = 0 ∧ Easing.ease_out_cubic 1 = 1 := by
  constructor <;> norm_num [Easing.ease_out_cubic]

theorem ease01_in_out_cubic :
    Easing.ease_in_out_cubic 0 = 0 ∧ Easing.ease_in_out_cubic 1 = 1 := by
  constructor <;> norm_num [Easing.ease_in_out_cubic]

theorem ease01_in_quart : Easing.ease_in_quart 0 = 0 ∧ Easing.ease_in_quart 1 = 1 := by
  constructor <;> norm_num [Easing.ease_in_quart]

theorem ease01_out_quart : Easing.ease_out_quart 0 = 0 ∧ Easing.ease_out_quart 1 = 1 := by
  constructor <;> norm_num [Easing.ease_out_quart]

theorem ease01_in_out_quart :
    Easing.ease_in_out_quart 0 = 0 ∧ Easing.ease_in_out_quart 1 = 1 := by
  constructor <;> norm_num [Easing.ease_in_out_quart]

theorem ease01_in_expo : Easing.ease_in_expo 0 = 0 ∧ Easing.ease_in_expo 1 = 1 := by
  constructor
  · simp [Easing.ease_in_expo]
  · rw [Easing.ease_in_expo, if_neg one_ne_zero, show (10:ℝ) * (1 - 1) = 0 by ring,
      Real.rpow_zero]

theorem ease01_out_expo : Easing.ease_out_expo 0 = 0 ∧ Easing.ease_out_expo 1 = 1 := by
  constructor
  · rw [Easing.ease_out_expo, if_neg (by norm_num : (0:ℝ) ≠ 1),
      show (-10:ℝ) * 0 = 0 by ring, Real.rpow_zero]
    norm_num
  · simp [Easing.ease_out_expo]

theorem ease01_in_out_expo :
    Easing.ease_in_out_expo 0 = 0 ∧ Easing.ease_in_out_expo 1 = 1 := by
  constructor
  · rw [Easing.ease_in_out_expo, if_pos (Or.inl rfl)]
  · rw [Easing.ease_in_out_expo, if_pos (Or.inr rfl)]

theorem ease01_in_back : Easing.ease_in_back 0 = 0 ∧ Easing.ease_in_back 1 = 1 := by
  constructor <;> norm_num [Easing.ease_in_back, backC3, backC1]

theorem ease01_out_back : Easing.ease_out_back 0 = 0 ∧ Easing.ease_out_back 1 = 1 := by
  constructor <;> norm_num [Easing.ease_out_back, backC3, backC1]

theorem ease01_in_out_back :
    Easing.ease_in_out_back 0 = 0 ∧ Easing.ease_in_out_back 1 = 1 := by
  constructor <;> norm_num [Easing.ease_in_out_back, backC2, backC1]

theorem ease01_in_elastic :
    Easing.ease_in_elastic 0 = 0 ∧ Easing.ease_in_elastic 1 = 1 := by
  constructor
  · rw [Easing.ease_in_elastic, if_pos (Or.inl rfl)]
  · rw [Easing.ease_in_elastic, if_pos (Or.inr rfl)]

theorem ease01_out_elastic :
    Easing.ease_out_elastic 0 = 0 ∧ Easing.ease_out_elastic 1 = 1 := by
  constructor
  · rw [Easing.ease_out_elastic, if_pos (Or.inl rfl)]
  · rw [Easing.ease_out_elastic, if_pos (Or.inr rfl)]

theorem ease01_in_out_elastic :
    Easing.ease_in_out_elastic 0 = 0 ∧ Easing.ease_in_out_elastic 1 = 1 := by
  constructor
  · rw [Easing.ease_in_out_elastic, if_pos (Or.inl rfl)]
  · rw [Easing.ease_in_out_elastic, if_pos (Or.inr rfl)]

theorem ease01_out_bounce :
    Easing.ease_out_bounce 0 = 0 ∧ Easing.ease_out_bounce 1 = 1 := by
  constructor
  · rw [Easing.ease_out_bounce, if_pos (by norm_num)]
    norm_num
  · rw [Easing.ease_out_bounce, if_neg (by norm_num), if_neg (by norm_num),
      if_neg (by norm_num)]
    norm_num

theorem ease01_in_bounce :
    Easing.ease_in_bounce 0 = 0 ∧ Easing.ease_in_bounce 1 = 1 := by
  constructor
  · rw [Easing.ease_in_bounce]
    norm_num [ease01_out_bounce.2]
  · rw [Easing.ease_in_bounce]
    norm_num [ease01_out_bounce.1]

theorem ease01_in_out_bounce :
    Easing.ease_in_out_bounce 0 = 0 ∧ Easing.ease_in_out_bounce 1 = 1 := by
  constructor
  · rw [Easing.ease_in_out_bounce, if_pos (by norm_num)]
    norm_num [ease01_out_bounce.2]
  · rw [Easing.ease_in_out_bounce, if_neg (by norm_num)]
    norm_num [ease01_out_bounce.2]

theorem overshoot_in_back :
    ∃ t : ℝ, 0 < t ∧ t < 1 ∧ (Easing.ease_in_back t < 0 ∨ 1 < Easing.ease_in_back t) := by
  refine ⟨1/10, by norm_num, by norm_num, Or.inl ?_⟩
  norm_num [Easing.ease_in_back, backC3, backC1]

theorem overshoot_out_back :
    ∃ t : ℝ, 0 < t ∧ t < 1 ∧ (Easing.ease_out_back t < 0 ∨ 1 < Easing.ease_out_back t) := by
  refine ⟨9/10, by norm_num, by norm_num, Or.inr ?_⟩
  norm_num [Easing.ease_out_back, backC3, backC1]

theorem overshoot_in_out_back :
    ∃ t : ℝ, 0 < t ∧ t < 1 ∧
      (Easing.ease_in_out_back t < 0 ∨ 1 < Easing.ease_in_out_back t) := by
  refine ⟨1/10, by norm_num, by norm_num, Or.inl ?_⟩
  rw [Easing.ease_in_out_back, if_pos (by norm_num)]
  norm_num [backC2, backC1]

theorem overshoot_in_elastic :
    ∃ t : ℝ, 0 < t ∧ t < 1 ∧
      (Easing.ease_in_elastic t < 0 ∨ 1 < Easing.ease_in_elastic t) := by
  refine ⟨1/2, by norm_num, by norm_num, Or.inl ?_⟩
  rw [Easing.ease_in_elastic, if_neg (by norm_num)]
  have hsin : Real.sin (((1:ℝ)/2 * 10 - 10.75) * elasticC4) = 1/2 := by
    rw [show (((1:ℝ)/2 * 10 - 10.75) * elasticC4) = Real.pi/6 - 2*Real.pi - 2*Real.pi by
      rw [elasticC4]; ring]
    rw [Real.sin_sub, Real.sin_two_pi, Real.cos_two_pi, Real.sin_sub, Real.sin_two_pi,
      Real.cos_two_pi, Real.sin_pi_div_six]
    ring
  rw [hsin, show (10 * ((1:ℝ)/2) - 10) = ((-5 : ℤ) : ℝ) by norm_num, Real.rpow_intCast]
  norm_num

theorem overshoot_out_elastic :
    ∃ t : ℝ, 0 < t ∧ t < 1 ∧
      (Easing.ease_out_elastic t < 0 ∨ 1 < Easing.ease_out_elastic t) := by
  refine ⟨3/20, by norm_num, by norm_num, Or.inr ?_⟩
  rw [Easing.ease_out_elastic, if_neg (by norm_num)]
  have hsin : Real.sin (((3:ℝ)/20 * 10 - 0.75) * elasticC4) = 1 := by
    rw [show (((3:ℝ)/20 * 10 - 0.75) * elasticC4) = Real.pi/2 by rw [elasticC4]; ring]
    exact Real.sin_pi_div_two
  rw [hsin, mul_one]
  have hpos : (0:ℝ) < (2:ℝ) ^ (-10 * ((3:ℝ)/20)) := Real.rpow_pos_of_pos (by norm_num) _
  linarith

theorem overshoot_in_out_elastic :
    ∃ t : ℝ, 0 < t ∧ t < 1 ∧
      (Easing.ease_in_out_elastic t < 0 ∨ 1 < Easing.ease_in_out_elastic t) := by
  refine ⟨31/80, by norm_num, by norm_num, Or.inl ?_⟩
  rw [Easing.ease_in_out_elastic, if_neg (by norm_num), if_pos (by norm_num)]
  have hsin : Real.sin ((20 * ((31:ℝ)/80) - 11.125) * elasticC5) = 1 := by
    rw [show ((20 * ((31:ℝ)/80) - 11.125) * elasticC5) = Real.pi/2 - 2*Real.pi by
      rw [elasticC5]; ring]
    rw [Real.sin_sub, Real.sin_two_pi, Real.cos_two_pi, Real.sin_pi_div_two]
    ring
  rw [hsin, mul_one]
  have hpos : (0:ℝ) < (2:ℝ) ^ (20 * ((31:ℝ)/80) - 10) := Real.rpow_pos_of_pos (by norm_num) _
  linarith

/- ===================== claim theorems ===================== -/

/-- Claim C2: every easing function f of the Easing library satisfies
f(0) = 0 and f(1) = 1 (including the overshooting back/elastic variants
and the special-cased exponential variants), and each back and elastic
variant takes a value outside [0, 1] at some t strictly inside (0, 1). -/
theorem c2_easing_endpoints_and_overshoot :
    (Easing.linear 0 = 0 ∧ Easing.linear 1 = 1) ∧
    (Easing.ease_in_quad 0 = 0 ∧ Easing.ease_in_quad 1 = 1) ∧
    (Easing.ease_out_quad 0 = 0 ∧ Easing.ease_out_quad 1 = 1) ∧
    (Easing.ease_in_out_quad 0 = 0 ∧ Easing.ease_in_out_quad 1 = 1) ∧
    (Easing.ease_in_cubic 0 = 0 ∧ Easing.ease_in_cubic 1 = 1) ∧
    (Easing.ease_out_cubic 0 = 0 ∧ Easing.ease_out_cubic 1 = 1) ∧
    (Easing.ease_in_out_cubic 0 = 0 ∧ Easing.ease_in_out_cubic 1 = 1) ∧
    (Easing.ease_in_quart 0 = 0 ∧ Easing.ease_in_quart 1 = 1) ∧
    (Easing.ease_out_quart 0 = 0 ∧ Easing.ease_out_quart 1 = 1) ∧
    (Easing.ease_in_out_quart 0 = 0 ∧ Easing.ease_in_out_quart 1 = 1) ∧
    (Easing.ease_in_expo 0 = 0 ∧ Easing.ease_in_expo 1 = 1) ∧
    (Easing.ease_out_expo 0 = 0 ∧ Easing.ease_out_expo 1 = 1) ∧
    (Easing.ease_in_out_expo 0 = 0 ∧ Easing.ease_in_out_expo 1 = 1) ∧
    (Easing.ease_in_back 0 = 0 ∧ Easing.ease_in_back 1 = 1) ∧
    (Easing.ease_out_back 0 = 0 ∧ Easing.ease_out_back 1 = 1) ∧
    (Easing.ease_in_out_back 0 = 0 ∧ Easing.ease_in_out_back 1 = 1) ∧
    (Easing.ease_in_elastic 0 = 0 ∧ Easing.ease_in_elastic 1 = 1) ∧
    (Easing.ease_out_elastic 0 = 0 ∧ Easing.ease_out_elastic 1 = 1) ∧
    (Easing.ease_in_out_elastic 0 = 0 ∧ Easing.ease_in_out_elastic 1 = 1) ∧
    (Easing.ease_out_bounce 0 = 0 ∧ Easing.ease_out_bounce 1 = 1) ∧
    (Easing.ease_in_bounce 0 = 0 ∧ Easing.ease_in_bounce 1 = 1) ∧
    (Easing.ease_in_out_bounce 0 = 0 ∧ Easing.ease_in_out_bounce 1 = 1) ∧
    (∃ t : ℝ, 0 < t ∧ t < 1 ∧
      (Easing.ease_in_back t < 0 ∨ 1 < Easing.ease_in_back t)) ∧
    (∃ t : ℝ, 0 < t ∧ t < 1 ∧
      (Easing.ease_out_back t < 0 ∨ 1 < Easing.ease_out_back t)) ∧
    (∃ t : ℝ, 0 < t ∧ t < 1 ∧
      (Easing.ease_in_out_back t < 0 ∨ 1 < Easing.ease_in_out_back t)) ∧
    (∃ t : ℝ, 0 < t ∧ t < 1 ∧
      (Easing.ease_in_elastic t < 0 ∨ 1 < Easing.ease_in_elastic t)) ∧
    (∃ t : ℝ, 0 < t ∧ t < 1 ∧
      (Easing.ease_out_elastic t < 0 ∨ 1 < Easing.ease_out_elastic t)) ∧
    (∃ t : ℝ, 0 < t ∧ t < 1 ∧
      (Easing.ease_in_out_elastic t < 0 ∨ 1 < Easing.ease_in_out_elastic t)) :=
  ⟨ease01_linear, ease01_in_quad, ease01_out_quad, ease01_in_out_quad,
   ease01_in_cubic, ease01_out_cubic, ease01_in_out_cubic,
   ease01_in_quart, ease01_out_quart, ease01_in_out_quart,
   ease01_in_expo, ease01_out_expo, ease01_in_out_expo,
   ease01_in_back, ease01_out_back, ease01_in_out_back,
   ease01_in_elastic, ease01_out_elastic, ease01_in_out_elastic,
   ease01_out_bounce, ease01_in_bounce, ease01_in_out_bounce,
   overshoot_in_back, overshoot_out_back, overshoot_in_out_back,
   overshoot_in_elastic, overshoot_out_elastic, overshoot_in_out_elastic⟩

/-- Claim C3 counterexample: with no easing supplied, fade_in selects
Easing.linear, which is not in the ease-out family; the value facts at
t = 1/2 show linear genuinely differs from every ease-out function. -/
theorem c3_fade_in_default_counterexample :
    fade_in_easing none = EasingId.linear ∧
    fade_in_easing none ∉ easeOutFamily ∧
    denoteEasing (fade_in_easing none) (1/2) = 1/2 ∧
    Easing.ease_out_quad (1/2) = 3/4 ∧
    Easing.ease_out_cubic (1/2) = 7/8 ∧
    Easing.ease_out_quart (1/2) = 15/16 ∧
    Easing.ease_out_expo (1/2) = 31/32 ∧
    Easing.ease_out_back (1/2) = 435079/400000 ∧
    Easing.ease_out_elastic (1/2) = 65/64 ∧
    Easing.ease_out_bounce (1/2) = 49/64 := by
  refine ⟨rfl, by decide, rfl, ?_, ?_, ?_, ?_, ?_, ?_, ?_⟩
  · norm_num [Easing.ease_out_quad]
  · norm_num [Easing.ease_out_cubic]
  · norm_num [Easing.ease_out_quart]
  · rw [Easing.ease_out_expo, if_neg (by norm_num),
      show (-10 * ((1:ℝ)/2)) = ((-5 : ℤ) : ℝ) by norm_num, Real.rpow_intCast]
    norm_num
  · norm_num [Easing.ease_out_back, backC3, backC1]
  · rw [Easing.ease_out_elastic, if_neg (by norm_num)]
    have hsin : Real.sin (((1:ℝ)/2 * 10 - 0.75) * elasticC4) = 1/2 := by
      rw [show (((1:ℝ)/2 * 10 - 0.75) * elasticC4) =
          (Real.pi - Real.pi/6) + 2*Real.pi by rw [elasticC4]; ring]
      rw [Real.sin_add_two_pi, Real.sin_pi_sub, Real.sin_pi_div_six]
    rw [hsin, show (-10 * ((1:ℝ)/2)) = ((-5 : ℤ) : ℝ) by norm_num, Real.rpow_intCast]
    norm_num
  · rw [Easing.ease_out_bounce, if_neg (by norm_num), if_pos (by norm_num)]
    norm_num

/-- Claim C3 amended: the entrance animations slide_in_from_top,
slide_in_from_bottom, slide_in_from_left, slide_in_from_right, zoom_in
and bounce_in default to an ease-out-family easing when the caller
supplies none, but fade_in defaults to Easing.linear, which is not in
the ease-out family. -/
theorem c3_entrance_defaults_amended :
    slide_in_from_top_easing none ∈ easeOutFamily ∧
    slide_in_from_bottom_easing none ∈ easeOutFamily ∧
    slide_in_from_left_easing none ∈ easeOutFamily ∧
    slide_in_from_right_easing none ∈ easeOutFamily ∧
    zoom_in_easing none ∈ easeOutFamily ∧
    bounce_in_easing none ∈ easeOutFamily ∧
    fade_in_easing none = EasingId.linear ∧
    fade_in_easing none ∉ easeOutFamily := by
  decide

unseal Rat.add Rat.mul Rat.inv Rat.sub Rat.ofScientific List.merge List.mergeSort in
/-- Claim C4: parse_goal_data on the two-goal input with times "08:20"
(team 1) and "05:00" (team 2) returns exactly the timeline
[(0,0,0), (300,0,1), (500,1,1)]: times in seconds, goals sorted
ascending, per-team counters accumulated, (0,0,0) baseline prefixed. -/
theorem c4_parse_goal_data_example :
    parse_goal_data [⟨.str ("08:20"), .vint 1⟩, ⟨.str ("05:00"), .vint 2⟩] =
      some [(0, 0, 0), (300, 0, 1), (500, 1, 1)] := by
  decide

unseal Rat.add Rat.mul Rat.inv Rat.sub Rat.ofScientific in
/-- Claim C1 counterexample: _to_seconds("01:02:03") returns 62 (it reads
the first field as minutes and the second as seconds, ignoring the
third), not the claimed 3723. -/
theorem c1_hhmmss_counterexample :
    to_seconds (.str ("01:02:03")) = some 62 ∧
    to_seconds (.str ("01:02:03")) ≠ some 3723 := by
  constructor
  · decide
  · decide

unseal Rat.add Rat.mul Rat.inv Rat.sub Rat.ofScientific in
/-- Claim C1 amended: for every time string that splits on the colon into
at least two fields, _to_seconds returns int(first field) * 60 +
int(second field), ignoring any further fields; in particular
_to_seconds("01:02:03") = 62, not 3723. -/
theorem c1_to_seconds_amended (s : String) (a b : List Char) (r : List (List Char))
    (h : splitOnChar ':' s.toList = a :: b :: r) :
    to_seconds (.str s) =
      (pyInt a).bind (fun x => (pyInt b).map fun (y : ℤ) => (x : ℚ) * 60 + (y : ℚ)) ∧
    to_seconds (.str ("01:02:03")) = some 62 := by
  constructor
  · have hc : s.toList.contains ':' = true := contains_of_splitOnChar h
    simp only [to_seconds]
    rw [if_pos hc, h]
    simp [List.getD]
  · decide

unseal Rat.add Rat.mul Rat.inv Rat.sub Rat.ofScientific in
/-- Witness for the amended claim C1, at the concrete string
"01:02:03". -/
theorem c1_to_seconds_amended_witness :
    to_seconds (.str ("01:02:03")) =
      (pyInt ("01".toList)).bind
        (fun x => (pyInt ("02".toList)).map fun (y : ℤ) => (x : ℚ) * 60 + (y : ℚ)) ∧
    to_seconds (.str ("01:02:03")) = some 62 :=
  c1_to_seconds_amended ("01:02:03") ("01".toList) ("02".toList) [("03".toList)]
    (by decide)

unseal Rat.add Rat.mul Rat.inv Rat.sub Rat.ofScientific in
/-- Claim C6: the slide_down_and_up position function with
slide_duration = 1, pause_duration = 0.5, base_position = (10, 20) and
clip height 50 (default easing ease_in_out_quad) returns (10,20) at t=0,
(10,70) at t=1, (10,70) on all of [1, 1.5], and (10,20) at every
t >= 2.5, phase-3 progress being clamped to 1. -/
theorem c6_slide_down_and_up (t u : ℚ) (ht1 : 1 ≤ t) (ht2 : t ≤ 3/2) (hu : 5/2 ≤ u) :
    slide_down_up_position 1 (1/2) EasingQ.ease_in_out_quad 50 10 20 0 = (10, 20) ∧
    slide_down_up_position 1 (1/2) EasingQ.ease_in_out_quad 50 10 20 1 = (10, 70) ∧
    slide_down_up_position 1 (1/2) EasingQ.ease_in_out_quad 50 10 20 t = (10, 70) ∧
    slide_down_up_position 1 (1/2) EasingQ.ease_in_out_quad 50 10 20 u = (10, 20) := by
  refine ⟨by decide, by decide, ?_, ?_⟩
  · simp only [slide_down_up_position]
    split_ifs with hA hB
    · have ht : t = 1 := le_antisymm hA ht1
      subst ht
      norm_num [EasingQ.ease_in_out_quad]
    · norm_num
    · exfalso
      apply hB
      linarith
  · simp only [slide_down_up_position]
    split_ifs with hA hB
    · exfalso; linarith
    · exfalso; linarith
    · rw [min_eq_left (by rw [div_one]; linarith)]
      norm_num [EasingQ.ease_in_out_quad]

unseal Rat.add Rat.mul Rat.inv Rat.sub Rat.ofScientific in
/-- Witness for claim C6, at t = 5/4 inside the pause window and
u = 3 past the end of the animation. -/
theorem c6_slide_down_and_up_witness :
    slide_down_up_position 1 (1/2) EasingQ.ease_in_out_quad 50 10 20 0 = (10, 20) ∧
    slide_down_up_position 1 (1/2) EasingQ.ease_in_out_quad 50 10 20 1 = (10, 70) ∧
    slide_down_up_position 1 (1/2) EasingQ.ease_in_out_quad 50 10 20 (5/4) = (10, 70) ∧
    slide_down_up_position 1 (1/2) EasingQ.ease_in_out_quad 50 10 20 3 = (10, 20) :=
  c6_slide_down_and_up (5/4) 3 (by decide) (by decide) (by decide)

unseal Rat.add Rat.mul Rat.inv Rat.sub Rat.ofScientific in
/-- Claim C7: in the staggered lineup animation, row i waits off-screen
until exactly t = i * stagger (its position is the off-screen start for
all t < i * stagger and still at the off-screen start at t = i * stagger),
holds its final position from the end of its own slide-in until the
shared exit time total_animation_time + display_duration, and from that
shared time on its position agrees with that of any other row, so all
rows exit together; with n = 3 rows, stagger = 0.2 and
anim_duration = 0.5, row 2 starts at t = 0.4 and
total_animation_time = 0.9. -/
theorem c7_lineup_stagger (W fx fy stagger anim disp total t1 t2 t3 d2 : ℚ) (i : ℕ)
    (h1 : t1 < lineup_row_start_delay i stagger)
    (h2 : 0 < anim)
    (h3 : lineup_row_start_delay i stagger + anim ≤ t2)
    (h4 : t2 < total + disp)
    (h5 : lineup_row_start_delay i stagger + anim ≤ total + disp)
    (h6 : total + disp ≤ t3)
    (h7 : d2 + anim ≤ total + disp) :
    lineup_item_position W fx fy (lineup_row_start_delay i stagger) anim disp total t1
        = (-W - 100, fy) ∧
    lineup_item_position W fx fy (lineup_row_start_delay i stagger) anim disp total
        (lineup_row_start_delay i stagger) = (-W - 100, fy) ∧
    lineup_item_position W fx fy (lineup_row_start_delay i stagger) anim disp total t2
        = (fx, fy) ∧
    lineup_item_position W fx fy (lineup_row_start_delay i stagger) anim disp total
        (total + disp) = (fx, fy) ∧
    lineup_item_position W fx fy (lineup_row_start_delay i stagger) anim disp total t3
        = lineup_item_position W fx fy d2 anim disp total t3 ∧
    lineup_total_anim_time 1 (1/5) (1/2) = 9/10 ∧
    lineup_row_start_delay 2 (1/5) = 2/5 := by
  refine ⟨?_, ?_, ?_, ?_, ?_, by decide, by decide⟩
  · simp only [lineup_item_position]
    rw [if_pos h1]
  · simp only [lineup_item_position]
    rw [if_neg (lt_irrefl _), if_pos (by linarith)]
    rw [sub_self, zero_div]
    norm_num [EasingQ.ease_out_bounce]
  · simp only [lineup_item_position]
    rw [if_neg (by linarith), if_neg (by linarith), if_pos h4]
  · simp only [lineup_item_position]
    rw [if_neg (by linarith), if_neg (by linarith), if_neg (lt_irrefl _)]
    rw [sub_self, zero_div]
    rw [min_eq_right (by norm_num)]
    norm_num [EasingQ.ease_in_quad]
  · have lhs : lineup_item_position W fx fy (lineup_row_start_delay i stagger) anim
        disp total t3 =
        (fx + (-W - 100 - fx) *
          EasingQ.ease_in_quad (min 1 ((t3 - (total + disp)) / anim)), fy) := by
      simp only [lineup_item_position]
      rw [if_neg (by linarith), if_neg (by linarith), if_neg (by linarith)]
    have rhs : lineup_item_position W fx fy d2 anim disp total t3 =
        (fx + (-W - 100 - fx) *
          EasingQ.ease_in_quad (min 1 ((t3 - (total + disp)) / anim)), fy) := by
      simp only [lineup_item_position]
      rw [if_neg (by linarith), if_neg (by linarith), if_neg (by linarith)]
    rw [lhs, rhs]

unseal Rat.add Rat.mul Rat.inv Rat.sub Rat.ofScientific in
/-- Witness for claim C7, with row 2, stagger = 1/5, anim = 1/2,
display = 6, total = 9/10, container width 400 and final position
(0, 0). -/
theorem c7_lineup_stagger_witness :
    lineup_item_position 400 0 0 (lineup_row_start_delay 2 (1/5)) (1/2) 6 (9/10) (3/10)
        = (-400 - 100, 0) ∧
    lineup_item_position 400 0 0 (lineup_row_start_delay 2 (1/5)) (1/2) 6 (9/10)
        (lineup_row_start_delay 2 (1/5)) = (-400 - 100, 0) ∧
    lineup_item_position 400 0 0 (lineup_row_start_delay 2 (1/5)) (1/2) 6 (9/10) 1
        = (0, 0) ∧
    lineup_item_position 400 0 0 (lineup_row_start_delay 2 (1/5)) (1/2) 6 (9/10)
        (9/10 + 6) = (0, 0) ∧
    lineup_item_position 400 0 0 (lineup_row_start_delay 2 (1/5)) (1/2) 6 (9/10) 7
        = lineup_item_position 400 0 0 0 (1/2) 6 (9/10) 7 ∧
    lineup_total_anim_time 1 (1/5) (1/2) = 9/10 ∧
    lineup_row_start_delay 2 (1/5) = 2/5 :=
  c7_lineup_stagger 400 0 0 (1/5) (1/2) 6 (9/10) (3/10) 1 7 0 2
    (by decide) (by decide) (by decide) (by decide) (by decide) (by decide) (by decide)

unseal Rat.add Rat.mul Rat.inv Rat.sub Rat.ofScientific in
/-- Claim C8: in clip_video, a start time at or beyond the video duration
always raises an error, while an end time beyond the duration is not an
error: it is clamped to the duration and clipping proceeds, so a video
of duration 100 clipped with end_time = 150 yields a clip ending at 100
(duration 100 - start). -/
theorem c8_clip_video_clamp (dA sA eA dB sB eB sC : ℚ)
    (hA : dA ≤ sA) (hB1 : sB < eB) (hB2 : sB < dB) (hB3 : dB < eB) (hC : sC < 100) :
    (clip_video_bounds dA sA eA).isOk = false ∧
    clip_video_bounds dB sB eB = .ok (sB, dB) ∧
    clip_video_bounds 100 sC 150 = .ok (sC, 100) := by
  refine ⟨?_, ?_, ?_⟩
  · simp only [clip_video_bounds]
    split_ifs with h1
    · rfl
    · rfl
  · simp only [clip_video_bounds]
    rw [if_neg (not_le.mpr hB1), if_neg (not_le.mpr hB2), if_pos hB3]
  · simp only [clip_video_bounds]
    rw [if_neg (not_le.mpr (by linarith : sC < 150)), if_neg (not_le.mpr hC),
      if_pos (by norm_num : (150:ℚ) > 100)]

unseal Rat.add Rat.mul Rat.inv Rat.sub Rat.ofScientific in
/-- Witness for claim C8: duration 100, failing start 120, and a clip
from 10 to 150 clamped to (10, 100). -/
theorem c8_clip_video_clamp_witness :
    (clip_video_bounds 100 120 150).isOk = false ∧
    clip_video_bounds 100 10 150 = .ok (10, 100) ∧
    clip_video_bounds 100 10 150 = .ok (10, 100) :=
  c8_clip_video_clamp 100 120 150 100 10 150 10
    (by decide) (by decide) (by decide) (by decide) (by decide)

unseal Rat.add Rat.mul Rat.inv Rat.sub Rat.ofScientific List.merge List.mergeSort in
/-- Claim C5 counterexample: for the single goal with numeric time -5 the
timeline is [(0,0,0), (-5,1,0)], whose timestamps are not non-decreasing,
because the implicit (0,0,0) baseline precedes the negative-time goal. -/
theorem c5_negative_time_counterexample :
    parse_goal_data [⟨.num (-5), .vint 1⟩] = some [(0, 0, 0), (-5, 1, 0)] ∧
    ¬ List.Chain' (fun a b : ℚ × ℕ × ℕ => a.1 ≤ b.1)
        [((0 : ℚ), (0 : ℕ), (0 : ℕ)), (-5, 1, 0)] := by
  constructor
  · decide
  · intro hch
    have := (List.chain'_cons.mp hch).1
    norm_num at this

/-- Claim C5 amended: the timeline returned by parse_goal_data has
non-decreasing timestamps for every goal list whose parsed times are all
non-negative; its team scores are non-decreasing for every goal list
whatsoever; and the sort is stable: any two goals with equal parsed
timestamps keep their original input order. -/
theorem c5_timeline_invariants_amended :
    (∀ (goals : List Goal) (tl : List (ℚ × ℕ × ℕ)),
        parse_goal_data goals = some tl →
        (∀ g ∈ goals, ∀ v : ℚ, to_seconds g.time = some v → 0 ≤ v) →
        List.Chain' (fun a b : ℚ × ℕ × ℕ => a.1 ≤ b.1) tl) ∧
    (∀ (goals : List Goal) (tl : List (ℚ × ℕ × ℕ)),
        parse_goal_data goals = some tl →
        List.Chain' (fun a b : ℚ × ℕ × ℕ => a.2.1 ≤ b.2.1 ∧ a.2.2 ≤ b.2.2) tl) ∧
    (∀ (goals : List Goal) (kl : List (ℚ × Goal)),
        key_goals goals = some kl →
        ∀ p q : ℚ × Goal, [p, q].Sublist kl → p.1 = q.1 →
          [p, q].Sublist (kl.mergeSort goalKeyLE)) := by
  refine ⟨?_, ?_, ?_⟩
  · intro goals tl h hnn
    cases hk : key_goals goals with
    | none =>
      simp only [parse_goal_data, sorted_goals, hk, Option.map_none'] at h
      exact absurd h (by simp)
    | some kl =>
      simp only [parse_goal_data, sorted_goals, hk, Option.map_some',
        Option.some.injEq] at h
      subst h
      have hsorted := @List.sorted_mergeSort _ goalKeyLE
        goalKeyLE_trans goalKeyLE_total kl
      have hpw : (kl.mergeSort goalKeyLE).Pairwise (fun a b => a.1 ≤ b.1) :=
        hsorted.imp (fun hab => by simpa [goalKeyLE] using hab)
      have hmem : ∀ x ∈ kl.mergeSort goalKeyLE, (0 : ℚ) ≤ x.1 := by
        intro x hx
        have hx2 : x ∈ kl := List.mem_mergeSort.mp hx
        obtain ⟨hts, hg⟩ := key_goals_mem goals kl hk x hx2
        exact hnn x.2 hg x.1 hts
      apply (List.chain'_map Prod.fst).mp
      have hmap : ((0, 0, 0) :: buildTimeline 0 0 (kl.mergeSort goalKeyLE)).map Prod.fst
          = (0 : ℚ) :: (kl.mergeSort goalKeyLE).map Prod.fst := by
        simp [buildTimeline_map_fst]
      rw [hmap]
      apply List.Pairwise.chain'
      refine List.pairwise_cons.mpr ⟨?_, ?_⟩
      · intro k hkmem
        obtain ⟨x, hx, hxk⟩ := List.mem_map.mp hkmem
        exact hxk ▸ hmem x hx
      · exact List.pairwise_map.mpr hpw
  · intro goals tl h
    cases hk : key_goals goals with
    | none =>
      simp only [parse_goal_data, sorted_goals, hk, Option.map_none'] at h
      exact absurd h (by simp)
    | some kl =>
      simp only [parse_goal_data, sorted_goals, hk, Option.map_some',
        Option.some.injEq] at h
      subst h
      show List.Chain _ (0, 0, 0) (buildTimeline 0 0 (kl.mergeSort goalKeyLE))
      exact buildTimeline_chain_scores (kl.mergeSort goalKeyLE) 0 0 (0, 0, 0) rfl rfl
  · intro goals kl hk p q hpq heq
    refine List.pair_sublist_mergeSort goalKeyLE_trans goalKeyLE_total ?_ hpq
    simp [goalKeyLE, heq.le]

unseal Rat.add Rat.mul Rat.inv Rat.sub Rat.ofScientific List.merge List.mergeSort in
/-- Witness for the amended claim C5: timestamps non-decreasing for two
non-negative-time goals sharing time 5; scores non-decreasing even for
the negative-time goal list; and the equal-time pair keeps its input
order through the sort. -/
theorem c5_timeline_invariants_witness :
    List.Chain' (fun a b : ℚ × ℕ × ℕ => a.1 ≤ b.1)
      [(0, 0, 0), (5, 1, 0), (5, 1, 1)] ∧
    List.Chain' (fun a b : ℚ × ℕ × ℕ => a.2.1 ≤ b.2.1 ∧ a.2.2 ≤ b.2.2)
      [((0 : ℚ), (0 : ℕ), (0 : ℕ)), (-5, 1, 0)] ∧
    [((5 : ℚ), Goal.mk (.num 5) (.vint 1)), ((5 : ℚ), Goal.mk (.num 5) (.vint 2))].Sublist
      ([((5 : ℚ), Goal.mk (.num 5) (.vint 1)),
        ((5 : ℚ), Goal.mk (.num 5) (.vint 2))].mergeSort goalKeyLE) :=
  ⟨c5_timeline_invariants_amended.1
    [⟨.num 5, .vint 1⟩, ⟨.num 5, .vint 2⟩]
    [(0, 0, 0), (5, 1, 0), (5, 1, 1)]
    (by decide)
    (by
      intro g hg v hv
      have hgt : g.time = TimeVal.num 5 := by
        rcases List.mem_cons.mp hg with hcase | hcase
        · subst hcase; rfl
        · rcases List.mem_cons.mp hcase with hcase2 | hcase2
          · subst hcase2; rfl
          · exact absurd hcase2 (List.not_mem_nil g)
      rw [hgt] at hv
      have hv2 : (5 : ℚ) = v := Option.some.inj hv
      rw [← hv2]
      norm_num),
   c5_timeline_invariants_amended.2.1
    [⟨.num (-5), .vint 1⟩]
    [(0, 0, 0), (-5, 1, 0)]
    (by decide),
   c5_timeline_invariants_amended.2.2
    [⟨.num 5, .vint 1⟩, ⟨.num 5, .vint 2⟩]
    [(5, ⟨.num 5, .vint 1⟩), (5, ⟨.num 5, .vint 2⟩)]
    (by decide)
    (5, ⟨.num 5, .vint 1⟩) (5, ⟨.num 5, .vint 2⟩)
    (List.Sublist.refl _) rfl⟩

unseal Rat.add Rat.mul Rat.inv Rat.sub Rat.ofScientific in
/-- Claim C9: parse_time("01:02:03") = 3723, parse_time(330) = 330, and
parse_time raises exactly when its input is neither numeric, nor a
numeric string, nor a colon-separated string of 2 or 3 integer fields
(so parse_time("bad") raises). -/
theorem c9_parse_time_characterization :
    parse_time (.str ("01:02:03")) = some 3723 ∧
    parse_time (.num 330) = some 330 ∧
    parse_time (.str ("bad")) = none ∧
    (∀ q : ℚ, parse_time (.num q) = some q) ∧
    ∀ s : String, (parse_time (.str s)).isSome = true ↔
      (isNumericString s ∨ isColonTime s) := by
  refine ⟨by decide, by decide, by decide, fun q => rfl, ?_⟩
  intro s
  simp only [parse_time, isNumericString, isColonTime]
  cases hf : pyFloat (pyStrip s.toList) with
  | some v => simp
  | none =>
    simp only [Option.isSome_none, Bool.false_eq_true, false_or]
    cases hc : (pyStrip s.toList).contains ':' with
    | false =>
      rw [if_neg (by simp), splitOnChar_of_not_contains hc]
      simp
    | true =>
      rw [if_pos rfl]
      cases hsp : splitOnChar ':' (pyStrip s.toList) with
      | nil => exact absurd hsp (splitOnChar_ne_nil _ _)
      | cons a tail =>
        cases tail with
        | nil => simp
        | cons b tail2 =>
          cases tail2 with
          | nil =>
            rw [isSome_bind_map]
            simp [List.forall_mem_cons]
          | cons c tail3 =>
            cases tail3 with
            | nil =>
              rw [isSome_bind_bind_map]
              simp [List.forall_mem_cons, and_assoc]
            | cons d tail4 =>
              simp [List.forall_mem_cons]

/-- Claim C10: parse_goal_data never validates the team id: the final
score pair of the timeline counts as team-1 goals exactly those whose
team compares equal to the int 1, and every other goal (team 0, 3, a
string, ...) is counted as a team-2 goal. -/
theorem c10_team_two_counting (goals : List Goal) (tl : List (ℚ × ℕ × ℕ))
    (h : parse_goal_data goals = some tl) :
    (tl.getLastD (0, 0, 0)).2.1 = goals.countP (fun g => teamIsOne g.team) ∧
    (tl.getLastD (0, 0, 0)).2.2 = goals.countP (fun g => !teamIsOne g.team) ∧
    teamIsOne (.vint 0) = false ∧ teamIsOne (.vint 3) = false ∧
    teamIsOne (.vstr ("1")) = false := by
  cases hk : key_goals goals with
  | none =>
    simp only [parse_goal_data, sorted_goals, hk, Option.map_none'] at h
    exact absurd h (by simp)
  | some kl =>
    simp only [parse_goal_data, sorted_goals, hk, Option.map_some',
      Option.some.injEq] at h
    subst h
    rw [List.getLastD_cons]
    obtain ⟨e1, e2⟩ := buildTimeline_getLastD (kl.mergeSort goalKeyLE) 0 0 (0, 0, 0)
      rfl rfl
    have hperm := List.mergeSort_perm kl goalKeyLE
    have hsnd := key_goals_map_snd goals kl hk
    refine ⟨?_, ?_, rfl, rfl, rfl⟩
    · rw [e1, hperm.countP_eq, ← hsnd, List.countP_map]
      simp only [Nat.zero_add]
      rfl
    · rw [e2, hperm.countP_eq, ← hsnd, List.countP_map]
      simp only [Nat.zero_add]
      rfl

unseal Rat.add Rat.mul Rat.inv Rat.sub Rat.ofScientific List.merge List.mergeSort in
/-- Witness for claim C10: goals with team values 0, 3 and the string
"1" are all counted for team 2. -/
theorem c10_team_two_counting_witness :
    (([((0:ℚ), (0:ℕ), (0:ℕ)), (10, 0, 1), (20, 0, 2), (30, 0, 3)].getLastD
        (0, 0, 0)).2.1 =
      ([⟨.num 10, .vint 0⟩, ⟨.num 20, .vint 3⟩,
        ⟨.num 30, .vstr ("1")⟩] : List Goal).countP (fun g => teamIsOne g.team)) ∧
    (([((0:ℚ), (0:ℕ), (0:ℕ)), (10, 0, 1), (20, 0, 2), (30, 0, 3)].getLastD
        (0, 0, 0)).2.2 =
      ([⟨.num 10, .vint 0⟩, ⟨.num 20, .vint 3⟩,
        ⟨.num 30, .vstr ("1")⟩] : List Goal).countP (fun g => !teamIsOne g.team)) ∧
    teamIsOne (.vint 0) = false ∧ teamIsOne (.vint 3) = false ∧
    teamIsOne (.vstr ("1")) = false :=
  c10_team_two_counting
    [⟨.num 10, .vint 0⟩, ⟨.num 20, .vint 3⟩, ⟨.num 30, .vstr ("1")⟩]
    [(0, 0, 0), (10, 0, 1), (20, 0, 2), (30, 0, 3)]
    (by decide)
